import Mathlib

/-!
Verification development for the `prep` line-oriented text-search tool.

The definitions below are a shallow embedding of the Python sources:
  * `prep/domain/models.py`            (data model)
  * `prep/infrastructure/boolean_parser.py`   (boolean expression engine)
  * `prep/infrastructure/pattern_matching.py` (BooleanPatternMatcher)
  * `prep/usecases/search_usecase.py`  (sequential / parallel orchestration)
  * `prep/infrastructure/parallel_execution.py` (ThreadBasedExecutor)
  * `prep/infrastructure/file_watcher.py` (StandardFileWatcher, ContextBuffer)
  * `prep/usecases/file_watch_usecase.py` (live watch loop)
  * `prep/infrastructure/chronological_merge.py` (ChronologicalMerger)

The host regular-expression library (`re`) is out of scope of the sources;
it is modelled by the abstract `RegexEngine` interface, plus one concrete
executable instance (`substrEngine`) that realizes `re`'s behaviour on
metacharacter-free patterns (plain substring search) for use in concrete
evaluations.  Python strings are represented by `String`, Python `int` by
`Int` where a value can be compared against negative sentinels, and 1-based
line numbers by `Nat`.
-/

namespace Prep

/-- Python `str.strip()` on a list of characters: drop whitespace at both ends. -/
def py_strip_list (cs : List Char) : List Char :=
  ((cs.dropWhile Char.isWhitespace).reverse.dropWhile Char.isWhitespace).reverse

/-- Python `str.strip()`. -/
def py_strip (s : String) : String :=
  String.mk (py_strip_list s.data)

/-! ## Data model (`prep/domain/models.py`) -/

/-- Embedding of `MatchType` (models.py): normal, word or line matching. -/
inductive MatchType where
  | NORMAL
  | WORD
  | LINE
  deriving DecidableEq, Repr

/-- Embedding of `SearchPattern` (models.py): a pattern string with its
configuration.  `regex_flags` is the integer flag word passed to `re`. -/
structure SearchPattern where
  pattern : String
  match_type : MatchType
  regex_flags : Int
  is_regex : Bool
  deriving DecidableEq, Repr

/-- Embedding of `MatchResult` (models.py): a match found in a line.
`match_start`/`match_end` are `Int` because the code base uses `-1` as a
sentinel offset for context-only records. -/
structure MatchResult where
  line_number : Nat
  line_content : String
  match_start : Int
  match_end : Int
  pattern : Option SearchPattern
  deriving DecidableEq, Repr

/-- Embedding of `FileMatch` (models.py): matches found in one file. -/
structure FileMatch where
  file_path : String
  /-- The `matches` field of the Python dataclass (`matches` is reserved in Lean). -/
  matches_ : List MatchResult
  is_binary : Bool
  deriving DecidableEq, Repr

/-- Embedding of the `FileMatch.match_count` property (models.py line 64):
`len(self.matches)`. -/
def FileMatch.match_count (fm : FileMatch) : Nat :=
  fm.matches_.length

/-- Embedding of `SearchOptions` (models.py). -/
structure SearchOptions where
  patterns : List SearchPattern
  invert_match : Bool
  count_only : Bool
  quiet : Bool
  context_before : Int
  context_after : Int
  highlight_matches : Bool
  recursive : Bool
  ignore_binary : Bool
  max_threads : Int
  follow : Bool
  deriving DecidableEq, Repr

/-- Embedding of `SearchResult` (models.py): the aggregate of a search run. -/
structure SearchResult where
  file_matches : List FileMatch
  total_matches : Nat
  files_with_matches : Nat
  deriving DecidableEq, Repr

/-! ## The host regex library, abstracted

`re.compile`, `compiled.search` and `compiled.finditer` are modelled by an
abstract engine; `compiles p flags = false` models `re.compile` raising
`re.error` for pattern `p`. -/

/-- Abstract interface of the host regular-expression facility consumed by
the boolean engine and the pattern matcher. -/
structure RegexEngine where
  compiles : String → Int → Bool
  search : String → Int → String → Bool
  finditer : String → Int → String → List (Int × Int)

/-! ## Boolean expression engine (`prep/infrastructure/boolean_parser.py`) -/

/-- Embedding of the boolean expression tree: the classes `LiteralNode`,
`NotNode`, `AndNode`, `OrNode` (boolean_parser.py). -/
inductive BooleanNode where
  | LiteralNode (pattern : String)
  | NotNode (child : BooleanNode)
  | AndNode (left right : BooleanNode)
  | OrNode (left right : BooleanNode)
  deriving DecidableEq, Repr

/-- Embedding of `evaluate` on the node classes (boolean_parser.py):
a literal re-compiles its pattern and searches the line, with `re.error`
caught and turned into `False`; `Not` negates; `And`/`Or` combine their
children with Python's short-circuiting `and`/`or`. -/
def BooleanNode.evaluate (eng : RegexEngine) : BooleanNode → Int → String → Bool
  | .LiteralNode p, flags, text =>
      if eng.compiles p flags then eng.search p flags text else false
  | .NotNode c, flags, text => !(c.evaluate eng flags text)
  | .AndNode l r, flags, text => l.evaluate eng flags text && r.evaluate eng flags text
  | .OrNode l r, flags, text => l.evaluate eng flags text || r.evaluate eng flags text

/-- Embedding of `get_patterns` on the node classes (boolean_parser.py):
left-to-right collection of every literal leaf's text. -/
def BooleanNode.get_patterns : BooleanNode → List String
  | .LiteralNode p => [p]
  | .NotNode c => c.get_patterns
  | .AndNode l r => l.get_patterns ++ r.get_patterns
  | .OrNode l r => l.get_patterns ++ r.get_patterns

/-! ### The recursive-descent parser (`BooleanExpressionParser`)

The Python parser mutates a position `self.pos` into the pattern string and
raises `ValueError` on failure.  The embedding threads the position
explicitly and returns `Except Unit (BooleanNode × Nat)`.  Recursion that is
obviously terminating in Python (every successful sub-parse consumes at
least one character) is expressed with a fuel parameter large enough that
exhaustion is unreachable; exhaustion maps to the same fallback as a parse
error. -/

/-- Embedding of `_skip_whitespace`: first non-whitespace position at or
after `pos` (fuel-based so it evaluates by kernel reduction). -/
def skip_ws_fuel : Nat → List Char → Nat → Nat
  | 0, _, pos => pos
  | fuel+1, cs, pos =>
      match cs.get? pos with
      | some c => if c.isWhitespace then skip_ws_fuel fuel cs (pos+1) else pos
      | none => pos

/-- Embedding of `_skip_whitespace` with its fuel pre-supplied. -/
def skip_whitespace (cs : List Char) (pos : Nat) : Nat :=
  skip_ws_fuel (cs.length + 1) cs pos

/-- Scan of the literal-collection loop in `_parse_literal`: advance while
the current character is none of `& | ! ( )`. -/
def literal_end_fuel : Nat → List Char → Nat → Nat
  | 0, _, pos => pos
  | fuel+1, cs, pos =>
      match cs.get? pos with
      | some c =>
          if c = '&' ∨ c = '|' ∨ c = '!' ∨ c = '(' ∨ c = ')' then pos
          else literal_end_fuel fuel cs (pos+1)
      | none => pos

/-- Literal scan with its fuel pre-supplied. -/
def literal_end (cs : List Char) (pos : Nat) : Nat :=
  literal_end_fuel (cs.length + 1) cs pos

/-- Embedding of `_parse_literal` (boolean_parser.py lines 188-207). -/
def parse_literal_node (cs : List Char) (pos : Nat) : Except Unit (BooleanNode × Nat) :=
  let start := skip_whitespace cs pos
  let stop := literal_end cs start
  if stop = start then .error ()
  else
    let lit := py_strip_list ((cs.drop start).take (stop - start))
    if lit = [] then .error ()
    else .ok (.LiteralNode (String.mk lit), stop)

mutual

/-- Embedding of `_parse_or_expr` (lowest precedence). -/
def parse_or_expr (fuel : Nat) (cs : List Char) (pos : Nat) :
    Except Unit (BooleanNode × Nat) :=
  match fuel with
  | 0 => .error ()
  | f+1 => do
      let (left, pos1) ← parse_and_expr f cs pos
      parse_or_loop f cs left pos1
termination_by structural fuel

/-- Embedding of the `while ... == '|'` loop inside `_parse_or_expr`.
Like the Python `_peek`, the whitespace skip advances the position even
when the loop then exits. -/
def parse_or_loop (fuel : Nat) (cs : List Char) (left : BooleanNode) (pos : Nat) :
    Except Unit (BooleanNode × Nat) :=
  match fuel with
  | 0 => .error ()
  | f+1 =>
      if pos < cs.length then
        let pos1 := skip_whitespace cs pos
        match cs.get? pos1 with
        | some c =>
            if c = '|' then do
              let (right, pos2) ← parse_and_expr f cs (pos1 + 1)
              parse_or_loop f cs (.OrNode left right) pos2
            else .ok (left, pos1)
        | none => .ok (left, pos1)
      else .ok (left, pos)
termination_by structural fuel

/-- Embedding of `_parse_and_expr` (medium precedence). -/
def parse_and_expr (fuel : Nat) (cs : List Char) (pos : Nat) :
    Except Unit (BooleanNode × Nat) :=
  match fuel with
  | 0 => .error ()
  | f+1 => do
      let (left, pos1) ← parse_not_expr f cs pos
      parse_and_loop f cs left pos1
termination_by structural fuel

/-- Embedding of the `while ... == '&'` loop inside `_parse_and_expr`. -/
def parse_and_loop (fuel : Nat) (cs : List Char) (left : BooleanNode) (pos : Nat) :
    Except Unit (BooleanNode × Nat) :=
  match fuel with
  | 0 => .error ()
  | f+1 =>
      if pos < cs.length then
        let pos1 := skip_whitespace cs pos
        match cs.get? pos1 with
        | some c =>
            if c = '&' then do
              let (right, pos2) ← parse_not_expr f cs (pos1 + 1)
              parse_and_loop f cs (.AndNode left right) pos2
            else .ok (left, pos1)
        | none => .ok (left, pos1)
      else .ok (left, pos)
termination_by structural fuel

/-- Embedding of `_parse_not_expr` (high precedence). -/
def parse_not_expr (fuel : Nat) (cs : List Char) (pos : Nat) :
    Except Unit (BooleanNode × Nat) :=
  match fuel with
  | 0 => .error ()
  | f+1 =>
      if pos < cs.length then
        let pos1 := skip_whitespace cs pos
        match cs.get? pos1 with
        | some c =>
            if c = '!' then do
              let (child, pos2) ← parse_not_expr f cs (pos1 + 1)
              .ok (.NotNode child, pos2)
            else parse_primary f cs pos1
        | none => parse_primary f cs pos1
      else parse_primary f cs pos
termination_by structural fuel

/-- Embedding of `_parse_primary` (parentheses or literal). -/
def parse_primary (fuel : Nat) (cs : List Char) (pos : Nat) :
    Except Unit (BooleanNode × Nat) :=
  match fuel with
  | 0 => .error ()
  | f+1 =>
      let pos1 := skip_whitespace cs pos
      match cs.get? pos1 with
      | some c =>
          if c = '(' then do
            let (expr, pos2) ← parse_or_expr f cs (pos1 + 1)
            let pos3 := skip_whitespace cs pos2
            match cs.get? pos3 with
            | some c2 => if c2 = ')' then .ok (expr, pos3 + 1) else .error ()
            | none => .error ()
          else parse_literal_node cs pos1
      | none => parse_literal_node cs pos1
termination_by structural fuel

end

/-- Check of `any(op in self.pattern for op in ['&', '|', '!'])`. -/
def has_bool_operator (s : String) : Bool :=
  s.data.contains '&' || s.data.contains '|' || s.data.contains '!'

/-- Embedding of `BooleanExpressionParser.parse` / `parse_boolean_pattern`
(boolean_parser.py lines 124-142, 229-239): `None` for an empty or
whitespace-only pattern; a single literal holding the whole pattern when no
boolean operator occurs; otherwise run the recursive descent and fall back
to a single literal of the whole pattern on a parse error or unconsumed
input. -/
def parse_boolean_pattern (pattern : String) : Option BooleanNode :=
  let cs := pattern.data
  if py_strip pattern = "" then none
  else if has_bool_operator pattern then
    match parse_or_expr (4 * cs.length + 8) cs 0 with
    | .ok (result, pos) =>
        if pos < cs.length then some (.LiteralNode pattern) else some result
    | .error _ => some (.LiteralNode pattern)
  else some (.LiteralNode pattern)

/-! ## Pattern matching (`prep/infrastructure/pattern_matching.py`) -/

/-- Match-type wrapping as done inline in `find_matches` (lines 52-57) and
in `_create_modified_tree` (lines 84-89): word mode wraps in
`\\b(?:...)\\b`, line mode in `^(?:...)$`, normal mode leaves the pattern
unchanged. -/
def wrap_match_type (mt : MatchType) (p : String) : String :=
  match mt with
  | .WORD => "\\b(?:" ++ p ++ ")\\b"
  | .LINE => "^(?:" ++ p ++ ")$"
  | .NORMAL => p

/-- Embedding of `BooleanPatternMatcher._create_modified_tree`
(pattern_matching.py lines 78-103): rebuild the tree with the match type
applied to every literal leaf. -/
def create_modified_tree (mt : MatchType) : BooleanNode → BooleanNode
  | .LiteralNode p => .LiteralNode (wrap_match_type mt p)
  | .NotNode c => .NotNode (create_modified_tree mt c)
  | .AndNode l r => .AndNode (create_modified_tree mt l) (create_modified_tree mt r)
  | .OrNode l r => .OrNode (create_modified_tree mt l) (create_modified_tree mt r)

/-- Embedding of `BooleanPatternMatcher.find_matches` (pattern_matching.py
lines 14-76): per configured pattern, parse it as a boolean expression,
apply the match type to the tree when it is not normal, evaluate the tree
against the line, and — only if the tree evaluates to true — collect
highlight spans by re-running every literal leaf (wrapped per the match
type) over the line, skipping leaves whose regex does not compile. -/
def find_matches (eng : RegexEngine) (content : String) (line_number : Nat)
    (options : SearchOptions) : List MatchResult :=
  options.patterns.foldl (fun acc pat =>
    match parse_boolean_pattern pat.pattern with
    | none => acc
    | some tree0 =>
      let bool_tree :=
        if pat.match_type = MatchType.NORMAL then tree0
        else create_modified_tree pat.match_type tree0
      if bool_tree.evaluate eng pat.regex_flags content then
        bool_tree.get_patterns.foldl (fun acc2 literal_pattern =>
          let search_pattern := wrap_match_type pat.match_type literal_pattern
          if eng.compiles search_pattern pat.regex_flags then
            acc2 ++ (eng.finditer search_pattern pat.regex_flags content).map
              (fun sp => MatchResult.mk line_number content sp.1 sp.2 (some pat))
          else acc2) acc
      else acc) []

/-- Embedding of `BooleanPatternMatcher.should_include_line`
(pattern_matching.py lines 113-123): include the line when the collected
match list is non-empty, flipped by `invert_match`. -/
def should_include_line (match_list : List MatchResult) (options : SearchOptions) : Bool :=
  if options.invert_match then match_list.isEmpty else !match_list.isEmpty

/-! ## Static search orchestration (`prep/usecases/search_usecase.py`) -/

/-- Model of the `FileReader`/`FileScanner` collaborators for one file:
its path, whether `exists` and `is_binary` report true, and the decoded
line sequence `read_lines` produces. -/
structure FileData where
  file_path : String
  exists_file : Bool
  is_binary : Bool
  lines : List String
  deriving DecidableEq, Repr

/-- Embedding of the line loop of `SearchUseCase._search_single_file`
(search_usecase.py lines 127-146): 1-based enumeration (the counter `n` is
the number of the head line), `find_matches`, then `should_include_line`;
an included line contributes a single dummy record with offsets `(0, 0)`
under `invert_match`, and its collected match records otherwise. -/
def search_lines (eng : RegexEngine) (options : SearchOptions) :
    Nat → List String → List MatchResult
  | _, [] => []
  | n, line :: rest =>
      let line_matches := find_matches eng line n options
      let contribution :=
        if should_include_line line_matches options then
          if options.invert_match then
            [MatchResult.mk n line 0 0 options.patterns.head?]
          else line_matches
        else []
      contribution ++ search_lines eng options (n+1) rest

/-- Embedding of `SearchUseCase._search_single_file` (search_usecase.py
lines 117-151): missing files yield an empty non-binary result; binary
files are skipped when `ignore_binary` is set; otherwise the line loop
runs. -/
def search_single_file (eng : RegexEngine) (f : FileData) (options : SearchOptions) :
    FileMatch :=
  if !f.exists_file then FileMatch.mk f.file_path [] false
  else if f.is_binary && options.ignore_binary then FileMatch.mk f.file_path [] true
  else FileMatch.mk f.file_path (search_lines eng options 1 f.lines) f.is_binary

/-- Embedding of the loop of `SearchUseCase._search_sequential`
(search_usecase.py lines 49-60): per file, append the result when it has
matches or the run is not quiet, bump the counters when it has matches,
and break out of the loop after the first match-bearing file in quiet
mode.  Returns (file_matches, total_matches, files_with_matches). -/
def search_sequential_go (eng : RegexEngine) (options : SearchOptions) :
    List FileData → List FileMatch × Nat × Nat
  | [] => ([], 0, 0)
  | f :: rest =>
      let fm := search_single_file eng f options
      if !fm.matches_.isEmpty then
        if options.quiet then ([fm], fm.matches_.length, 1)
        else
          let s := search_sequential_go eng options rest
          (fm :: s.1, fm.matches_.length + s.2.1, 1 + s.2.2)
      else
        let s := search_sequential_go eng options rest
        ((if !options.quiet then fm :: s.1 else s.1), s.2.1, s.2.2)

/-- Embedding of `SearchUseCase._search_sequential` (search_usecase.py
lines 43-66). -/
def search_sequential (eng : RegexEngine) (files : List FileData)
    (options : SearchOptions) : SearchResult :=
  let s := search_sequential_go eng options files
  SearchResult.mk s.1 s.2.1 s.2.2

/-- Embedding of the aggregation loop of `SearchUseCase._search_parallel`
(search_usecase.py lines 103-109) over the executor's result list. -/
def aggregate_results (options : SearchOptions) :
    List FileMatch → List FileMatch × Nat × Nat
  | [] => ([], 0, 0)
  | fm :: rest =>
      let s := aggregate_results options rest
      let fms := if !fm.matches_.isEmpty || !options.quiet then fm :: s.1 else s.1
      if !fm.matches_.isEmpty then (fms, fm.matches_.length + s.2.1, 1 + s.2.2)
      else (fms, s.2.1, s.2.2)

/-- Embedding of `SearchUseCase._search_parallel` (search_usecase.py lines
68-115) combined with `ThreadBasedExecutor.execute_parallel`
(parallel_execution.py lines 14-38): one task per file runs
`_search_single_file`; `as_completed` hands the executor the finished
results in worker completion order, modelled by the permutation `order` of
the task indices; the collected result list is then aggregated in that
order. -/
def search_parallel (eng : RegexEngine) (files : List FileData)
    (options : SearchOptions) (order : List (Fin files.length)) : SearchResult :=
  let results := order.map (fun i => search_single_file eng (files.get i) options)
  let s := aggregate_results options results
  SearchResult.mk s.1 s.2.1 s.2.2

/-! ## Context buffer (`prep/infrastructure/file_watcher.py` lines 75-147) -/

/-- Embedding of the `ContextBuffer` state: capacities, the list used as a
ring buffer of `(line_number, content)` pairs, the internal line counter
and the after-match countdown. -/
structure ContextBuffer where
  before_lines : Int
  after_lines : Int
  buffer : List (Nat × String)
  line_number : Nat
  after_match_count : Int
  deriving DecidableEq, Repr

/-- Embedding of `ContextBuffer.__init__`. -/
def ContextBuffer.init (before_lines after_lines : Int) : ContextBuffer :=
  ContextBuffer.mk before_lines after_lines [] 0 0

/-- Embedding of `ContextBuffer.add_line` (file_watcher.py lines 92-103):
bump the internal counter, and when before-context is enabled append the
line and evict the oldest entry (`pop(0)`) once the buffer exceeds
`before_lines`. -/
def ContextBuffer.add_line (cb : ContextBuffer) (line : String) : ContextBuffer :=
  let n := cb.line_number + 1
  if 0 < cb.before_lines then
    let buf := cb.buffer ++ [(n, line)]
    let buf := if cb.before_lines < (buf.length : Int) then buf.tail else buf
    ContextBuffer.mk cb.before_lines cb.after_lines buf n cb.after_match_count
  else
    ContextBuffer.mk cb.before_lines cb.after_lines cb.buffer n cb.after_match_count

/-- Embedding of `ContextBuffer.get_context_for_match` (file_watcher.py
lines 105-129): the before-context is the buffered lines except any entry
numbered like the match line, and the after-match countdown is reset to
`after_lines`.  Returns the before list along with the updated state. -/
def ContextBuffer.get_context_for_match (cb : ContextBuffer) (match_line_number : Nat) :
    List (Nat × String) × ContextBuffer :=
  let before :=
    if 0 < cb.before_lines then cb.buffer.filter (fun p => p.1 != match_line_number)
    else []
  (before,
    ContextBuffer.mk cb.before_lines cb.after_lines cb.buffer cb.line_number cb.after_lines)

/-- Embedding of `ContextBuffer.get_after_context_line` (file_watcher.py
lines 131-141): when the countdown is positive, decrement it and report
the line as after-context. -/
def ContextBuffer.get_after_context_line (cb : ContextBuffer) (line_number : Nat)
    (line : String) : (Bool × Option (Nat × String)) × ContextBuffer :=
  if 0 < cb.after_match_count then
    ((true, some (line_number, line)),
      ContextBuffer.mk cb.before_lines cb.after_lines cb.buffer cb.line_number
        (cb.after_match_count - 1))
  else ((false, none), cb)

/-- Embedding of `ContextBuffer.clear` (file_watcher.py lines 143-147). -/
def ContextBuffer.clear (cb : ContextBuffer) : ContextBuffer :=
  ContextBuffer.mk cb.before_lines cb.after_lines [] 0 0

/-- One observable operation on a `ContextBuffer`, for stating invariants
over arbitrary operation sequences. -/
inductive BufferOp where
  | addLine (line : String)
  | onMatch (match_line_number : Nat)
  | afterCheck (line_number : Nat) (line : String)
  | clearBuf
  deriving DecidableEq, Repr

/-- State transition of one `BufferOp` (outputs discarded). -/
def ContextBuffer.apply_op (cb : ContextBuffer) : BufferOp → ContextBuffer
  | .addLine line => cb.add_line line
  | .onMatch n => (cb.get_context_for_match n).2
  | .afterCheck n line => (cb.get_after_context_line n line).2
  | .clearBuf => cb.clear

/-- State after a sequence of operations from a fresh buffer. -/
def ContextBuffer.run_ops (before_lines after_lines : Int) (ops : List BufferOp) :
    ContextBuffer :=
  ops.foldl ContextBuffer.apply_op (ContextBuffer.init before_lines after_lines)

/-! ## Live watch pipeline (`file_watcher.py` lines 39-68 and
`prep/usecases/file_watch_usecase.py` lines 42-109) -/

/-- Embedding of the line production of `StandardFileWatcher.watch_file`
(file_watcher.py lines 50-53): from the lines of newly appended content
(the `splitlines()` output), yield each line, skipping empty ones. -/
def watch_file_yield (raw_lines : List String) : List String :=
  raw_lines.filter (fun line => !(line == ""))

/-- One line printed by the live watch loop: a before-context line, the
matching line itself, or an after-context line, tagged with the use case's
line number for that content. -/
inductive WatchEvent where
  | beforeLine (line_number : Nat) (content : String)
  | matchLine (line_number : Nat) (content : String)
  | afterLine (line_number : Nat) (content : String)
  deriving DecidableEq, Repr

/-- Embedding of one iteration of the loop in
`FileWatchUseCase.watch_and_search` (file_watch_usecase.py lines 64-107):
number the line, evaluate it, print before-context plus the match (unless
quiet) on a match, otherwise ask for after-context; the line is added to
the buffer only after processing.  The state is (buffer, line counter,
matches_found); the returned list holds the lines printed for this
input line. -/
def watch_step (eng : RegexEngine) (options : SearchOptions)
    (st : ContextBuffer × Nat × Bool) (line : String) :
    (ContextBuffer × Nat × Bool) × List WatchEvent :=
  let n := st.2.1 + 1
  let line_matches := find_matches eng line n options
  if should_include_line line_matches options then
    if !options.quiet then
      let r := st.1.get_context_for_match n
      let events := r.1.map (fun p => WatchEvent.beforeLine p.1 p.2) ++
        [WatchEvent.matchLine n line]
      ((r.2.add_line line, n, true), events)
    else ((st.1.add_line line, n, true), [])
  else
    let r := st.1.get_after_context_line n line
    let events :=
      if r.1.1 && !options.quiet then
        match r.1.2 with
        | some p => [WatchEvent.afterLine p.1 p.2]
        | none => []
      else []
    ((r.2.add_line line, n, st.2.2), events)

/-- Embedding of the whole watch loop over a list of yielded lines,
collecting every printed line in order together with the final
`matches_found` flag. -/
def watch_and_search (eng : RegexEngine) (options : SearchOptions) :
    (ContextBuffer × Nat × Bool) → List String → List WatchEvent × Bool
  | st, [] => ([], st.2.2)
  | st, line :: rest =>
      let r := watch_step eng options st line
      let s := watch_and_search eng options r.1 rest
      (r.2 ++ s.1, s.2)

/-- Embedding of `FileWatchUseCase.watch_and_search` applied to the lines
the watcher yields for appended raw content: the context buffer is created
from the configured context sizes and the counter starts at zero. -/
def live_pipeline (eng : RegexEngine) (options : SearchOptions)
    (raw_lines : List String) : List WatchEvent × Bool :=
  watch_and_search eng options
    (ContextBuffer.init options.context_before options.context_after, 0, false)
    (watch_file_yield raw_lines)

/-! ## Chronological merger (`prep/infrastructure/chronological_merge.py`)

`TimestampParser.parse_timestamp` extracts an ISO-8601 timestamp via the
host regex library and `datetime.strptime`; it is modelled abstractly as a
function `String -> Option t` into a linearly ordered timestamp type, which
is all `ChronologicalMerger.merge` consumes. -/

/-- One entry of `all_matches_with_meta` (chronological_merge.py lines
70-75): timestamp, original file index, file path and the match itself. -/
structure TsMeta (t : Type) where
  timestamp : t
  file_idx : Nat
  file_path : String
  match_result : MatchResult
  deriving DecidableEq, Repr

/-- Collection of the metadata for one file's matches; `none` models the
early `return result` as soon as a match line has no parseable timestamp
(chronological_merge.py lines 62-68). -/
def collect_file_meta {t : Type} (parse_timestamp : String → Option t)
    (file_idx : Nat) (file_path : String) : List MatchResult → Option (List (TsMeta t))
  | [] => some []
  | m :: rest =>
      match parse_timestamp m.line_content with
      | none => none
      | some ts =>
          (collect_file_meta parse_timestamp file_idx file_path rest).map
            (fun l => TsMeta.mk ts file_idx file_path m :: l)

/-- Collection of the metadata across all files, in file-list order with
running file index (chronological_merge.py lines 59-75). -/
def collect_all_meta {t : Type} (parse_timestamp : String → Option t) :
    Nat → List FileMatch → Option (List (TsMeta t))
  | _, [] => some []
  | idx, fm :: rest => do
      let ms ← collect_file_meta parse_timestamp idx fm.file_path fm.matches_
      let others ← collect_all_meta parse_timestamp (idx+1) rest
      pure (ms ++ others)

/-- Sort key comparison of `(timestamp, file_idx, line_number)` tuples
(chronological_merge.py lines 78-80), as a boolean total preorder. -/
def ts_key_le {t : Type} [LinearOrder t] (a b : TsMeta t) : Bool :=
  if a.timestamp < b.timestamp then true
  else if b.timestamp < a.timestamp then false
  else if a.file_idx < b.file_idx then true
  else if b.file_idx < a.file_idx then false
  else decide (a.match_result.line_number ≤ b.match_result.line_number)

/-- Stable insertion: the new element goes after every element that
compares less-or-equal, preserving input order among equals (the model of
Python's stable `list.sort`). -/
def insert_by_key {a : Type} (le : a → a → Bool) (x : a) : List a → List a
  | [] => [x]
  | y :: ys => if le y x then y :: insert_by_key le x ys else x :: y :: ys

/-- Stable sort by repeated insertion, models Python's stable `list.sort`
with a key function. -/
def stable_sort_by {a : Type} (le : a → a → Bool) (xs : List a) : List a :=
  xs.foldl (fun acc x => insert_by_key le x acc) []

/-- Embedding of the regrouping loop (chronological_merge.py lines 84-112):
consecutive same-file runs of the sorted matches become `FileMatch`
segments with `is_binary = False`. -/
def regroup_matches {t : Type} :
    Option (String × List MatchResult) → List (TsMeta t) → List FileMatch
  | none, [] => []
  | some cur, [] => [FileMatch.mk cur.1 cur.2 false]
  | none, m :: rest => regroup_matches (some (m.file_path, [m.match_result])) rest
  | some cur, m :: rest =>
      if m.file_path == cur.1 then
        regroup_matches (some (cur.1, cur.2 ++ [m.match_result])) rest
      else
        FileMatch.mk cur.1 cur.2 false ::
          regroup_matches (some (m.file_path, [m.match_result])) rest

/-- Embedding of `ChronologicalMerger.merge` (chronological_merge.py lines
44-118): single-file results pass through; a missing timestamp on any
match aborts with the input unchanged; otherwise the matches are stably
sorted by `(timestamp, file_idx, line_number)` and regrouped, keeping the
original totals. -/
def ChronologicalMerger.merge {t : Type} [LinearOrder t]
    (parse_timestamp : String → Option t) (result : SearchResult) : SearchResult :=
  if result.file_matches.length ≤ 1 then result
  else
    match collect_all_meta parse_timestamp 0 result.file_matches with
    | none => result
    | some metas =>
        SearchResult.mk (regroup_matches none (stable_sort_by ts_key_le metas))
          result.total_matches result.files_with_matches

/-! ## Concrete regex engines for concrete evaluations -/

/-- Non-overlapping occurrence scan of pattern `p` in text `t` starting at
offset `i`: the behaviour of `re.finditer` for a metacharacter-free
pattern.  Fuel-based so it evaluates by kernel reduction. -/
def substr_spans_aux (p : List Char) : Nat → List Char → Nat → List (Int × Int)
  | 0, _, _ => []
  | fuel+1, t, i =>
      if !p.isEmpty && p.isPrefixOf (t.drop i) then
        ((i : Int), ((i + p.length : Nat) : Int)) :: substr_spans_aux p fuel t (i + p.length)
      else if i < t.length then substr_spans_aux p fuel t (i+1)
      else []

/-- Occurrence spans of `p` in `t` (non-overlapping, left to right). -/
def substr_spans (p t : List Char) : List (Int × Int) :=
  substr_spans_aux p (t.length + 1) t 0

/-- Concrete `RegexEngine` realizing `re` on metacharacter-free patterns:
everything compiles, search and finditer are plain substring scans. -/
def substrEngine : RegexEngine :=
  RegexEngine.mk (fun _ _ => true)
    (fun p _ t => !(substr_spans p.data t.data).isEmpty)
    (fun p _ t => substr_spans p.data t.data)

/-- Concrete `RegexEngine` in which the malformed pattern `(` raises
`re.error` at compile time, as it does under Python's `re`. -/
def failEngine : RegexEngine :=
  RegexEngine.mk (fun p _ => !(p == "(")) substrEngine.search substrEngine.finditer

/-- Engine transformation used to state fail-soft leaf evaluation: every
pattern compiles; a pattern the original engine rejects never matches. -/
def totalize_engine (eng : RegexEngine) : RegexEngine :=
  RegexEngine.mk (fun _ _ => true)
    (fun p flags text => if eng.compiles p flags then eng.search p flags text else false)
    eng.finditer

/-! ## Definitions following the spec's words (for refinement comparison) -/

/-- Definition following the spec's words for `FileResult.match_count`
(spec section 3): the count of records whose first span is not the
sentinel `(-1, -1)`.  To be compared against the source's
`FileMatch.match_count`. -/
def spec_match_count (fm : FileMatch) : Nat :=
  (fm.matches_.filter (fun m => !(m.match_start == -1 && m.match_end == -1))).length

/-- Lines of a file selected by the match decision (the guard of the
append in `_search_single_file`), with their 1-based numbers; used to
characterize the records built under `invert_match`. -/
def selected_lines (eng : RegexEngine) (options : SearchOptions) :
    Nat → List String → List (Nat × String)
  | _, [] => []
  | n, line :: rest =>
      (if should_include_line (find_matches eng line n options) options
       then [(n, line)] else []) ++ selected_lines eng options (n+1) rest

/-! ## Concrete inputs for the claim instances -/

/-- Options with the negation-only boolean pattern `!foo` (claim C1). -/
def c1_options : SearchOptions :=
  SearchOptions.mk [SearchPattern.mk "!foo" MatchType.NORMAL 0 true]
    false false false 0 0 false false true 1 false

/-- One-line file on which `foo` does not match (claim C1). -/
def c1_file : FileData := FileData.mk "log.txt" true false ["hello world"]

/-- First file of a two-file parallel search (claim C2). -/
def c2_file_a : FileData := FileData.mk "a.txt" true false ["alpha match here"]

/-- Second file of a two-file parallel search (claim C2). -/
def c2_file_b : FileData := FileData.mk "b.txt" true false ["beta match here"]

/-- Non-quiet options for the two-file parallel search (claim C2). -/
def c2_options : SearchOptions :=
  SearchOptions.mk [SearchPattern.mk "match" MatchType.NORMAL 0 true]
    false false false 0 0 false false true 2 false

/-- Options with `invert_match` set, pattern `foo` (claim C3). -/
def c3_options : SearchOptions :=
  SearchOptions.mk [SearchPattern.mk "foo" MatchType.NORMAL 0 true]
    true false false 0 0 false false true 1 false

/-- Three-line file whose lines 1 and 3 lack `foo` (claim C3). -/
def c3_file : FileData :=
  FileData.mk "notes.txt" true false ["bar line", "foo present", "baz line"]

/-- Options with `context_before = 2`, `context_after = 1` (claim C4). -/
def c4_options : SearchOptions :=
  SearchOptions.mk [SearchPattern.mk "MATCH" MatchType.NORMAL 0 true]
    false false false 2 1 false false true 1 false

/-- The six-line file of the spec's context-window invariant (claim C4). -/
def c4_file : FileData :=
  FileData.mk "test.log" true false ["a", "b", "c", "MATCH", "e", "f"]

/-- A file result holding a single sentinel-spanned record (claim C5). -/
def c5_sentinel_file_match : FileMatch :=
  FileMatch.mk "test.log" [MatchResult.mk 3 "hund" (-1) (-1) none] false

/-- Non-quiet options, pattern `foo`, used for the aggregate-count
instance (claim C5). -/
def c5_options : SearchOptions :=
  SearchOptions.mk [SearchPattern.mk "foo" MatchType.NORMAL 0 true]
    false false false 0 0 false false true 1 false

/-- Two small files for the aggregate-count instance (claim C5). -/
def c5_files : List FileData :=
  [FileData.mk "p.txt" true false ["foo", "bar"],
   FileData.mk "q.txt" true false ["foo foo"]]

/-- A two-file search result whose matches carry no timestamps (claim C7). -/
def c7_result : SearchResult :=
  SearchResult.mk
    [FileMatch.mk "a.log" [MatchResult.mk 1 "error one" 0 5 none] false,
     FileMatch.mk "b.log" [MatchResult.mk 2 "error two" 0 5 none] false]
    2 2

/-- Timestamp parser that never succeeds, the simplest instance of a match
line without a parseable timestamp (claim C7). -/
def c7_no_timestamp (s : String) : Option Nat :=
  match s with
  | _ => none

/-- Reachability invariant of a `ContextBuffer` state with non-negative
capacities: the ring buffer holds at most `before_lines` entries and the
after-match countdown stays between `0` and `after_lines`. -/
def buffer_inv (cb : ContextBuffer) : Prop :=
  0 ≤ cb.before_lines ∧ 0 ≤ cb.after_lines
  ∧ ((cb.buffer.length : Int) ≤ cb.before_lines)
  ∧ 0 ≤ cb.after_match_count ∧ cb.after_match_count ≤ cb.after_lines

/-! ## Claim theorems -/

/-- Claim C1 (code bug, concrete evaluation): for the negation-only
pattern `!foo` and the line `hello world`, the parsed tree is
`Not(Literal foo)` and evaluates to true, yet `find_matches` collects no
records (the highlight pass finds no concrete leaf occurrence), so
`should_include_line` rejects the line and the file search reports no
match at all — the code does not report the line as a match although the
boolean expression tree evaluates to true on it. -/
theorem negation_pattern_not_reported :
    parse_boolean_pattern "!foo" = some (BooleanNode.NotNode (BooleanNode.LiteralNode "foo"))
    ∧ (BooleanNode.NotNode (BooleanNode.LiteralNode "foo")).evaluate substrEngine 0 "hello world"
        = true
    ∧ find_matches substrEngine "hello world" 1 c1_options = []
    ∧ should_include_line (find_matches substrEngine "hello world" 1 c1_options) c1_options
        = false
    ∧ (search_single_file substrEngine c1_file c1_options).matches_ = [] := by
  refine ⟨by decide, by decide, by decide, by decide, by decide⟩

/-- Claim C4 (code bug, concrete evaluation): for `context_before = 2`,
`context_after = 1` and the six-line file whose only matching line is
line 4, the static search pipeline emits exactly one record — line 4 with
its real span — and no context records for lines 2, 3 and 5 at all; the
live watch pipeline, by contrast, does print lines 2, 3, 4 and 5. -/
theorem static_context_lines_not_emitted :
    (search_single_file substrEngine c4_file c4_options).matches_.map
        (fun m => (m.line_number, m.match_start, m.match_end)) = [(4, 0, 5)]
    ∧ (live_pipeline substrEngine c4_options ["a", "b", "c", "MATCH", "e", "f"]).1
        = [WatchEvent.beforeLine 2 "b", WatchEvent.beforeLine 3 "c",
           WatchEvent.matchLine 4 "MATCH", WatchEvent.afterLine 5 "e"] := by
  refine ⟨by decide, by decide⟩

/-- Claim C6 (counterexample): the empty pattern contains none of the
operators `& | !`, yet `parse` returns `None` rather than a single-leaf
tree holding the pattern. -/
theorem parse_empty_pattern_cex :
    parse_boolean_pattern "" = none
    ∧ parse_boolean_pattern "" ≠ some (BooleanNode.LiteralNode "") := by
  refine ⟨by decide, by decide⟩

/-- Claim C6 (amended): `parse` never raises (it is total); it returns
`none` for an empty or whitespace-only pattern, and a single literal leaf
holding the entire original pattern string both when the pattern contains
none of `& | !` (and is not empty or whitespace-only) and when parsing
fails (`foo&`) or leaves unconsumed input (`foo!bar`). -/
theorem parse_literal_fallback_amended (p : String)
    (h1 : py_strip p ≠ "") (h2 : has_bool_operator p = false) :
    parse_boolean_pattern p = some (BooleanNode.LiteralNode p)
    ∧ parse_boolean_pattern "" = none
    ∧ parse_boolean_pattern " " = none
    ∧ parse_boolean_pattern "foo&" = some (BooleanNode.LiteralNode "foo&")
    ∧ parse_boolean_pattern "foo!bar" = some (BooleanNode.LiteralNode "foo!bar") := by
  refine ⟨?_, by decide, by decide, by decide, by decide⟩
  simp [parse_boolean_pattern, h1, h2]

/-- Witness for `parse_literal_fallback_amended` at the pattern `abc`. -/
theorem parse_literal_fallback_witness :
    parse_boolean_pattern "abc" = some (BooleanNode.LiteralNode "abc")
    ∧ parse_boolean_pattern "" = none
    ∧ parse_boolean_pattern " " = none
    ∧ parse_boolean_pattern "foo&" = some (BooleanNode.LiteralNode "foo&")
    ∧ parse_boolean_pattern "foo!bar" = some (BooleanNode.LiteralNode "foo!bar") :=
  parse_literal_fallback_amended "abc" (by decide) (by decide)

/-- Claim C8: a literal leaf whose pattern fails to compile evaluates to
false, and evaluation of any whole tree completes with the same boolean it
would produce under an engine in which every pattern compiles and failing
patterns simply never match — compile errors stay local to their leaf and
are never propagated. -/
theorem boolean_leaf_fail_soft (eng : RegexEngine) (flags : Int) (p : String)
    (text : String) (tree : BooleanNode) (h : eng.compiles p flags = false) :
    (BooleanNode.LiteralNode p).evaluate eng flags text = false
    ∧ tree.evaluate eng flags text = tree.evaluate (totalize_engine eng) flags text := by
  constructor
  · simp [BooleanNode.evaluate, h]
  · induction tree with
    | LiteralNode q =>
        by_cases hq : eng.compiles q flags <;>
          simp [BooleanNode.evaluate, totalize_engine, hq]
    | NotNode c ih => simp [BooleanNode.evaluate, ih]
    | AndNode l r ihl ihr => simp [BooleanNode.evaluate, ihl, ihr]
    | OrNode l r ihl ihr => simp [BooleanNode.evaluate, ihl, ihr]

/-- Witness for `boolean_leaf_fail_soft`: under `failEngine` the pattern
`(` does not compile. -/
theorem boolean_leaf_fail_soft_witness :
    (BooleanNode.LiteralNode "(").evaluate failEngine 0 "abc" = false
    ∧ (BooleanNode.AndNode (BooleanNode.LiteralNode "(")
        (BooleanNode.LiteralNode "b")).evaluate failEngine 0 "abc"
      = (BooleanNode.AndNode (BooleanNode.LiteralNode "(")
          (BooleanNode.LiteralNode "b")).evaluate (totalize_engine failEngine) 0 "abc" :=
  boolean_leaf_fail_soft failEngine 0 "(" "abc"
    (BooleanNode.AndNode (BooleanNode.LiteralNode "(") (BooleanNode.LiteralNode "b"))
    (by decide)

/-- Claim C10: the live file watcher never yields an empty line — an empty
line appended anywhere in the watched content leaves the whole live
pipeline output (printed lines and their line numbers, hence matches and
context lines alike) unchanged, and every yielded line is non-empty. -/
theorem watcher_discards_blank_lines (eng : RegexEngine) (options : SearchOptions)
    (xs ys raw : List String) (line : String) (hline : line ∈ watch_file_yield raw) :
    live_pipeline eng options (xs ++ "" :: ys) = live_pipeline eng options (xs ++ ys)
    ∧ line ≠ "" := by
  constructor
  · simp [live_pipeline, watch_file_yield]
  · rcases List.mem_filter.mp hline with ⟨-, h2⟩
    simpa using h2

/-- Witness for `watcher_discards_blank_lines` at concrete lines. -/
theorem watcher_discards_blank_lines_witness :
    live_pipeline substrEngine c1_options (["one"] ++ "" :: ["two"])
      = live_pipeline substrEngine c1_options (["one"] ++ ["two"])
    ∧ ("two" : String) ≠ "" :=
  watcher_discards_blank_lines substrEngine c1_options ["one"] ["two"] ["one", "", "two"]
    "two" (by decide)

/-- Helper: with quiet mode off, the parallel aggregation loop keeps every
result, in the order the executor delivered them. -/
theorem aggregate_results_not_quiet (options : SearchOptions)
    (h : options.quiet = false) :
    ∀ results : List FileMatch, (aggregate_results options results).1 = results := by
  intro results
  induction results with
  | nil => rfl
  | cons fm rest ih =>
      simp only [aggregate_results, h, Bool.not_false, Bool.or_true]
      split <;> simp [ih]

/-- Claim C2 (counterexample): with two files and the workers completing
in the order (second, first), the aggregated `file_matches` list is in
completion order `[b.txt, a.txt]`, not the original file-list order. -/
theorem parallel_results_completion_order_cex :
    (search_parallel substrEngine [c2_file_a, c2_file_b] c2_options
        [⟨1, by decide⟩, ⟨0, by decide⟩]).file_matches.map (fun fm => fm.file_path)
      = ["b.txt", "a.txt"]
    ∧ (["b.txt", "a.txt"] : List String) ≠ ["a.txt", "b.txt"] := by
  refine ⟨by decide, by decide⟩

/-- Claim C2 (amended): for every non-quiet multi-file parallel search,
the `file_matches` list of the final `SearchResult` is exactly the
per-file results in worker completion order — the order the claim
guarantees holds only when the completion order coincides with the
original file-list order, since no re-sorting by original index occurs. -/
theorem search_parallel_completion_order (eng : RegexEngine) (files : List FileData)
    (options : SearchOptions) (order : List (Fin files.length))
    (h : options.quiet = false) :
    (search_parallel eng files options order).file_matches
      = order.map (fun i => search_single_file eng (files.get i) options) := by
  simp [search_parallel, aggregate_results_not_quiet options h]

/-- Witness for `search_parallel_completion_order` at a concrete two-file
search completing in submission order. -/
theorem search_parallel_completion_order_witness :
    (search_parallel substrEngine [c2_file_a, c2_file_b] c2_options
        [⟨0, by decide⟩, ⟨1, by decide⟩]).file_matches
      = ([⟨0, by decide⟩, ⟨1, by decide⟩] : List (Fin ([c2_file_a, c2_file_b]).length)).map
          (fun i => search_single_file substrEngine ([c2_file_a, c2_file_b].get i) c2_options) :=
  search_parallel_completion_order substrEngine [c2_file_a, c2_file_b] c2_options
    [⟨0, by decide⟩, ⟨1, by decide⟩] (by decide)

/-- Helper: under `invert_match`, the line loop of `_search_single_file`
produces exactly one record per selected line, with offsets `(0, 0)` and
the head pattern attached. -/
theorem search_lines_invert (eng : RegexEngine) (options : SearchOptions)
    (h : options.invert_match = true) :
    ∀ (n : Nat) (lines : List String),
      search_lines eng options n lines
        = (selected_lines eng options n lines).map
            (fun q => MatchResult.mk q.1 q.2 0 0 options.patterns.head?) := by
  intro n lines
  induction lines generalizing n with
  | nil => rfl
  | cons l rest ih =>
      simp only [search_lines, selected_lines, h, if_true]
      split <;> simp [ih]

/-- Claim C3 (counterexample): in an inverted search over `c3_file`, the
emitted records (for the two selected lines) carry the span `(0, 0)`,
not the sentinel `(-1, -1)`. -/
theorem invert_record_span_cex :
    (search_single_file substrEngine c3_file c3_options).matches_.map
        (fun m => (m.line_number, m.match_start, m.match_end))
      = [(1, 0, 0), (3, 0, 0)]
    ∧ (((0 : Int), (0 : Int))) ≠ (((-1 : Int), (-1 : Int))) := by
  refine ⟨by decide, by decide⟩

/-- Claim C3 (amended): for every line selected because `invert_match`
flipped its result to matched, the emitted record list carries exactly one
record per selected line, whose single span is `(0, 0)` (Python
`match_start = match_end = 0`), with the first configured pattern
attached — not the sentinel `(-1, -1)`. -/
theorem invert_records_span_zero (eng : RegexEngine) (f : FileData)
    (options : SearchOptions) (h : options.invert_match = true)
    (hex : f.exists_file = true)
    (hbin : (f.is_binary && options.ignore_binary) = false) :
    (search_single_file eng f options).matches_
      = (selected_lines eng options 1 f.lines).map
          (fun q => MatchResult.mk q.1 q.2 0 0 options.patterns.head?) := by
  simp [search_single_file, hex, hbin, search_lines_invert eng options h]

/-- Witness for `invert_records_span_zero` at the concrete inverted
search. -/
theorem invert_records_span_zero_witness :
    (search_single_file substrEngine c3_file c3_options).matches_
      = (selected_lines substrEngine c3_options 1 c3_file.lines).map
          (fun q => MatchResult.mk q.1 q.2 0 0 c3_options.patterns.head?) :=
  invert_records_span_zero substrEngine c3_file c3_options (by decide) (by decide)
    (by decide)

/-- Claim C5 (counterexample): a file result whose only record carries the
sentinel span `(-1, -1)` still has `match_count = 1`, although the count
of non-sentinel records is `0`. -/
theorem match_count_sentinel_cex :
    c5_sentinel_file_match.match_count = 1
    ∧ spec_match_count c5_sentinel_file_match = 0 := by
  refine ⟨by decide, by decide⟩

/-- Helper: with quiet mode off, the sequential total is the sum of the
record-list lengths of the collected file results. -/
theorem search_sequential_go_total (eng : RegexEngine) (options : SearchOptions)
    (h : options.quiet = false) :
    ∀ files : List FileData,
      (search_sequential_go eng options files).2.1
        = ((search_sequential_go eng options files).1.map
            (fun fm => fm.matches_.length)).sum := by
  intro files
  induction files with
  | nil => rfl
  | cons f rest ih =>
      by_cases hm : (search_single_file eng f options).matches_.isEmpty = true
      · have hlen : (search_single_file eng f options).matches_.length = 0 := by
          rw [List.isEmpty_iff] at hm
          simp [hm]
        simp [search_sequential_go, h, hm, ih, hlen]
      · simp [search_sequential_go, h, hm, ih]

/-- Claim C5 (amended): `match_count` is the total number of records
(`len(self.matches)`), sentinel-spanned context or invert-placeholder
records included, and the aggregate `total_matches` of a non-quiet
sequential search likewise sums the full record-list lengths of its file
results. -/
theorem match_count_counts_all_records (eng : RegexEngine) (files : List FileData)
    (options : SearchOptions) (h : options.quiet = false) :
    (∀ fm : FileMatch, fm.match_count = fm.matches_.length)
    ∧ (search_sequential eng files options).total_matches
        = ((search_sequential eng files options).file_matches.map
            (fun fm => fm.matches_.length)).sum := by
  refine ⟨fun fm => rfl, ?_⟩
  simpa [search_sequential] using search_sequential_go_total eng options h files

/-- Witness for `match_count_counts_all_records` at a concrete two-file
sequential search. -/
theorem match_count_counts_all_records_witness :
    (∀ fm : FileMatch, fm.match_count = fm.matches_.length)
    ∧ (search_sequential substrEngine c5_files c5_options).total_matches
        = ((search_sequential substrEngine c5_files c5_options).file_matches.map
            (fun fm => fm.matches_.length)).sum :=
  match_count_counts_all_records substrEngine c5_files c5_options (by decide)

/-- Helper: one buffer operation preserves the reachability invariant and
never changes the stored capacities. -/
theorem buffer_inv_apply_op (cb : ContextBuffer) (hcb : buffer_inv cb) (op : BufferOp) :
    buffer_inv (cb.apply_op op)
    ∧ (cb.apply_op op).before_lines = cb.before_lines
    ∧ (cb.apply_op op).after_lines = cb.after_lines := by
  obtain ⟨h1, h2, h3, h4, h5⟩ := hcb
  cases op with
  | addLine line =>
      simp only [ContextBuffer.apply_op, ContextBuffer.add_line]
      split
      · refine ⟨⟨h1, h2, ?_, h4, h5⟩, rfl, rfl⟩
        split
        · simp only [List.length_tail, List.length_append, List.length_cons,
            List.length_nil]
          omega
        · rename_i hnoev
          simp only [List.length_append, List.length_cons, List.length_nil] at hnoev ⊢
          omega
      · exact ⟨⟨h1, h2, h3, h4, h5⟩, rfl, rfl⟩
  | onMatch n =>
      exact ⟨⟨h1, h2, h3, h2, le_refl _⟩, rfl, rfl⟩
  | afterCheck n line =>
      simp only [ContextBuffer.apply_op, ContextBuffer.get_after_context_line]
      split
      · rename_i hc
        refine ⟨⟨h1, h2, h3, ?_, ?_⟩, rfl, rfl⟩
        · show 0 ≤ cb.after_match_count - 1
          omega
        · show cb.after_match_count - 1 ≤ cb.after_lines
          omega
      · exact ⟨⟨h1, h2, h3, h4, h5⟩, rfl, rfl⟩
  | clearBuf =>
      refine ⟨⟨h1, h2, ?_, le_refl _, h2⟩, rfl, rfl⟩
      simpa [ContextBuffer.clear] using h1

/-- Helper: the invariant holds after any operation sequence from a fresh
buffer with non-negative capacities, and the capacities survive. -/
theorem run_ops_inv (b a : Int) (hb : 0 ≤ b) (ha : 0 ≤ a) (ops : List BufferOp) :
    buffer_inv (ContextBuffer.run_ops b a ops)
    ∧ (ContextBuffer.run_ops b a ops).before_lines = b
    ∧ (ContextBuffer.run_ops b a ops).after_lines = a := by
  have general :
      ∀ (ops : List BufferOp) (cb : ContextBuffer), buffer_inv cb →
        buffer_inv (ops.foldl ContextBuffer.apply_op cb)
        ∧ (ops.foldl ContextBuffer.apply_op cb).before_lines = cb.before_lines
        ∧ (ops.foldl ContextBuffer.apply_op cb).after_lines = cb.after_lines := by
    intro ops
    induction ops with
    | nil => exact fun cb hcb => ⟨hcb, rfl, rfl⟩
    | cons op rest ih =>
        intro cb hcb
        obtain ⟨hinv, hbef, haft⟩ := buffer_inv_apply_op cb hcb op
        obtain ⟨hinv2, hbef2, haft2⟩ := ih (cb.apply_op op) hinv
        exact ⟨hinv2, hbef2.trans hbef, haft2.trans haft⟩
  have hinit : buffer_inv (ContextBuffer.init b a) := by
    refine ⟨hb, ha, ?_, le_refl _, ha⟩
    simpa [ContextBuffer.init] using hb
  exact general ops (ContextBuffer.init b a) hinit

/-- Claim C9: throughout any sequence of context-buffer operations with
capacities `0 ≤ b` and `0 ≤ a`, the ring buffer never holds more than `b`
entries and the after countdown stays within `[0, a]`; a confirmed match
(`get_context_for_match`) resets the countdown to exactly `a`, a
non-matching line check (`get_after_context_line`) reports inclusion
exactly when the countdown is positive and then decrements it by one
(never below zero, unchanged once exhausted), and accruing a line
(`add_line`) leaves the countdown untouched. -/
theorem context_buffer_invariants (b a : Int) (hb : 0 ≤ b) (ha : 0 ≤ a)
    (ops : List BufferOp) :
    (((ContextBuffer.run_ops b a ops).buffer.length : Int) ≤ b
      ∧ 0 ≤ (ContextBuffer.run_ops b a ops).after_match_count
      ∧ (ContextBuffer.run_ops b a ops).after_match_count ≤ a)
    ∧ (∀ n, ((ContextBuffer.run_ops b a ops).get_context_for_match n).2.after_match_count = a)
    ∧ (∀ n line,
        ((ContextBuffer.run_ops b a ops).get_after_context_line n line).1.1
          = decide (0 < (ContextBuffer.run_ops b a ops).after_match_count))
    ∧ (∀ n line,
        ((ContextBuffer.run_ops b a ops).get_after_context_line n line).2.after_match_count
          = if 0 < (ContextBuffer.run_ops b a ops).after_match_count
            then (ContextBuffer.run_ops b a ops).after_match_count - 1
            else (ContextBuffer.run_ops b a ops).after_match_count)
    ∧ (∀ line,
        ((ContextBuffer.run_ops b a ops).add_line line).after_match_count
          = (ContextBuffer.run_ops b a ops).after_match_count) := by
  obtain ⟨⟨h1, h2, h3, h4, h5⟩, hbef, haft⟩ := run_ops_inv b a hb ha ops
  refine ⟨⟨?_, h4, ?_⟩, ?_, ?_, ?_, ?_⟩
  · omega
  · omega
  · intro n
    simp [ContextBuffer.get_context_for_match, haft]
  · intro n line
    by_cases hc : 0 < (ContextBuffer.run_ops b a ops).after_match_count <;>
      simp [ContextBuffer.get_after_context_line, hc]
  · intro n line
    by_cases hc : 0 < (ContextBuffer.run_ops b a ops).after_match_count <;>
      simp [ContextBuffer.get_after_context_line, hc]
  · intro line
    by_cases hbpos : 0 < (ContextBuffer.run_ops b a ops).before_lines <;>
      simp [ContextBuffer.add_line, hbpos]

/-- Witness for `context_buffer_invariants` with capacities 2 and 1 and a
concrete add / match / after-check sequence. -/
theorem context_buffer_invariants_witness :
    (((ContextBuffer.run_ops 2 1 [BufferOp.addLine "x", BufferOp.onMatch 1,
          BufferOp.afterCheck 2 "y"]).buffer.length : Int) ≤ 2
      ∧ 0 ≤ (ContextBuffer.run_ops 2 1 [BufferOp.addLine "x", BufferOp.onMatch 1,
          BufferOp.afterCheck 2 "y"]).after_match_count
      ∧ (ContextBuffer.run_ops 2 1 [BufferOp.addLine "x", BufferOp.onMatch 1,
          BufferOp.afterCheck 2 "y"]).after_match_count ≤ 1)
    ∧ (∀ n, ((ContextBuffer.run_ops 2 1 [BufferOp.addLine "x", BufferOp.onMatch 1,
          BufferOp.afterCheck 2 "y"]).get_context_for_match n).2.after_match_count = 1)
    ∧ (∀ n line,
        ((ContextBuffer.run_ops 2 1 [BufferOp.addLine "x", BufferOp.onMatch 1,
            BufferOp.afterCheck 2 "y"]).get_after_context_line n line).1.1
          = decide (0 < (ContextBuffer.run_ops 2 1 [BufferOp.addLine "x", BufferOp.onMatch 1,
              BufferOp.afterCheck 2 "y"]).after_match_count))
    ∧ (∀ n line,
        ((ContextBuffer.run_ops 2 1 [BufferOp.addLine "x", BufferOp.onMatch 1,
            BufferOp.afterCheck 2 "y"]).get_after_context_line n line).2.after_match_count
          = if 0 < (ContextBuffer.run_ops 2 1 [BufferOp.addLine "x", BufferOp.onMatch 1,
                BufferOp.afterCheck 2 "y"]).after_match_count
            then (ContextBuffer.run_ops 2 1 [BufferOp.addLine "x", BufferOp.onMatch 1,
                BufferOp.afterCheck 2 "y"]).after_match_count - 1
            else (ContextBuffer.run_ops 2 1 [BufferOp.addLine "x", BufferOp.onMatch 1,
                BufferOp.afterCheck 2 "y"]).after_match_count)
    ∧ (∀ line,
        ((ContextBuffer.run_ops 2 1 [BufferOp.addLine "x", BufferOp.onMatch 1,
            BufferOp.afterCheck 2 "y"]).add_line line).after_match_count
          = (ContextBuffer.run_ops 2 1 [BufferOp.addLine "x", BufferOp.onMatch 1,
              BufferOp.afterCheck 2 "y"]).after_match_count) :=
  context_buffer_invariants 2 1 (by decide) (by decide)
    [BufferOp.addLine "x", BufferOp.onMatch 1, BufferOp.afterCheck 2 "y"]

/-- Helper: the per-file metadata collection aborts with `none` as soon as
any match of the file has no parseable timestamp. -/
theorem collect_file_meta_none {t : Type} (pts : String → Option t)
    (idx : Nat) (fp : String) :
    ∀ ms : List MatchResult, (∃ m ∈ ms, pts m.line_content = none) →
      collect_file_meta pts idx fp ms = none := by
  intro ms
  induction ms with
  | nil =>
      rintro ⟨m, hm, -⟩
      cases hm
  | cons m rest ih =>
      rintro ⟨m0, hm0, hnone⟩
      rcases List.mem_cons.mp hm0 with rfl | hmem
      · simp [collect_file_meta, hnone]
      · cases hp : pts m.line_content with
        | none => simp [collect_file_meta, hp]
        | some ts => simp [collect_file_meta, hp, ih ⟨m0, hmem, hnone⟩]

/-- Helper: the whole-result metadata collection aborts with `none` as
soon as any match of any file has no parseable timestamp. -/
theorem collect_all_meta_none {t : Type} (pts : String → Option t) :
    ∀ (idx : Nat) (fms : List FileMatch),
      (∃ fm ∈ fms, ∃ m ∈ fm.matches_, pts m.line_content = none) →
      collect_all_meta pts idx fms = none := by
  intro idx fms
  induction fms generalizing idx with
  | nil =>
      rintro ⟨fm, hfm, -⟩
      cases hfm
  | cons fm rest ih =>
      rintro ⟨fm0, hfm0, hx⟩
      rcases List.mem_cons.mp hfm0 with rfl | hmem
      · simp [collect_all_meta, collect_file_meta_none pts idx fm0.file_path fm0.matches_ hx]
      · cases hc : collect_file_meta pts idx fm.file_path fm.matches_ with
        | none => simp [collect_all_meta, hc]
        | some ms => simp [collect_all_meta, hc, ih (idx + 1) ⟨fm0, hmem, hx⟩]

/-- Claim C7: if any match line of a search result lacks a parseable
timestamp, the chronological merger returns the input `SearchResult`
unchanged — `merge` aborts before any reordering, so no partial
reordering ever occurs (for single-file results it passes through
unchanged as well). -/
theorem merge_unchanged_without_timestamps {t : Type} [LinearOrder t]
    (parse_timestamp : String → Option t) (result : SearchResult)
    (h : ∃ fm ∈ result.file_matches, ∃ m ∈ fm.matches_,
      parse_timestamp m.line_content = none) :
    ChronologicalMerger.merge parse_timestamp result = result := by
  unfold ChronologicalMerger.merge
  split
  · rfl
  · simp [collect_all_meta_none parse_timestamp 0 result.file_matches h]

/-- Witness for `merge_unchanged_without_timestamps`: a two-file result
whose matches carry no timestamps is returned unchanged. -/
theorem merge_unchanged_without_timestamps_witness :
    ChronologicalMerger.merge c7_no_timestamp c7_result = c7_result :=
  merge_unchanged_without_timestamps c7_no_timestamp c7_result
    ⟨FileMatch.mk "a.log" [MatchResult.mk 1 "error one" 0 5 none] false,
      by simp [c7_result],
      MatchResult.mk 1 "error one" 0 5 none, by simp, rfl⟩

end Prep
